import Mathlib

/-!
Verification of the anomaly-detection pipeline of `anomaly_backend`
(`ml_model.py`, plus the legacy `.ipynb_checkpoints/ml_model-checkpoint.py`).

Numeric values (pandas float64 columns) are embedded as `ℚ`; a pandas `NaN`
or `pd.NA` cell is embedded as `Option ℚ` with `none` standing for the
missing value.  Timestamps (`PumpLogDate`, `LogDateTimeFixed`,
`LogStartTime`) are embedded as `ℤ` seconds; `Series.dt.floor("T")` is
flooring to a multiple of 60.  Python runtime errors are embedded as the
error side of `Except`.
-/

set_option maxHeartbeats 1000000

namespace AnomalyBackend

/-- pandas `Series.dt.floor("T")`: floor a timestamp (in seconds) to the minute. -/
def floorMinute (ts : ℤ) : ℤ := 60 * (ts.fdiv 60)

/-- Mean of a list of rationals (pandas `Series.mean` on a non-empty series;
the empty case, where pandas yields `NaN`, is never reached on the paths
that use this helper with a junk value of `0`). -/
def listMean (l : List ℚ) : ℚ := l.sum / l.length

/-- pandas `Series.median` over a non-empty series: middle element of the
sorted values, or the mean of the two middle elements for even length.
Returns the junk value `0` for the empty series (pandas: `NaN`). -/
def listMedian (l : List ℚ) : ℚ :=
  let s := List.insertionSort (fun a b : ℚ => a ≤ b) l
  let n := s.length
  if n = 0 then 0
  else if n % 2 = 1 then s.getD (n / 2) 0
  else (s.getD (n / 2 - 1) 0 + s.getD (n / 2) 0) / 2

/-- pandas `Series.quantile(q)` with the default linear interpolation
(`numpy` linear percentile): on the ascending-sorted values `s` of length
`n`, with `h = q*(n-1)`, `j = ⌊h⌋`, the result is
`s[j] + (h - j) * (s[j+1] - s[j])` (and `s[j]` when `j` is the last index).
Junk value `0` for the empty series (pandas: `NaN`), never reached on the
code paths that call it. -/
def quantileLinear (q : ℚ) (l : List ℚ) : ℚ :=
  let s := List.insertionSort (fun a b : ℚ => a ≤ b) l
  let n := s.length
  let h := q * ((n : ℚ) - 1)
  let j := (h.num / (h.den : ℤ)).toNat
  let lo := s.getD j 0
  let hi := s.getD (j + 1) lo
  lo + (h - (j : ℚ)) * (hi - lo)

/-- The index used by `quantileLinear` is the floor `⌊h⌋` of the
fractional position, written in the reduction-friendly
numerator/denominator form. -/
lemma quantile_index_eq_floor (h : ℚ) : h.num / (h.den : ℤ) = Int.floor h :=
  Rat.floor_def.symm

/-- The helper `map_severity` from `detect_anomalies` (ml_model.py lines 276-282):
score at or below the low quantile is HIGH, at or below the medium
quantile is MEDIUM, else LOW. -/
def map_severity (s qLow qMed : ℚ) : String :=
  if s ≤ qLow then "HIGH" else if s ≤ qMed then "MEDIUM" else "LOW"

/-! ## Rolling-window features (`build_features_21`, ml_model.py 156-190)

The rolling statistics are computed per pump group; each definition below
takes the single per-pump aligned series (one numeric column of one
rows of one pump, in bucket order). -/

/-- The trailing window of width `w` ending at index `i`:
`s.rolling(window=w)` looks at entries `i+1-w .. i` (clipped at the start
of the series). -/
def windowAt (w : ℕ) (xs : List ℚ) (i : ℕ) : List ℚ :=
  (xs.take (i + 1)).drop (i + 1 - w)

/-- pandas `s.rolling(window=w, min_periods=minp).mean()` at index `i`: `none`
(pandas `NaN`) when fewer than `minp` observations are in the window,
otherwise the mean of the window. -/
def rollMeanAt (w minp : ℕ) (xs : List ℚ) (i : ℕ) : Option ℚ :=
  let win := windowAt w xs i
  if win.length < minp then none else some (listMean win)

/-- pandas sample variance (`ddof=1`) of a window: `NaN` (`none`) for
fewer than two observations, else `Σ (x - mean)² / (n - 1)`. -/
def sampleVar (l : List ℚ) : Option ℚ :=
  if l.length < 2 then none
  else some ((l.map (fun x => (x - listMean l) ^ 2)).sum / ((l.length : ℚ) - 1))

/-- pandas sample standard deviation of a window: the square root of
`sampleVar`, `NaN` (`none`) for fewer than two observations. -/
noncomputable def sampleStd (l : List ℚ) : Option ℝ :=
  (sampleVar l).map (fun v => Real.sqrt (v : ℝ))

/-- One entry of `s.rolling(window=5, min_periods=1).std().fillna(0)`
(ml_model.py lines 176-177, 182-183, 188-189): the short-window rolling
standard deviation with `NaN` replaced by `0`. -/
noncomputable def rollStd5FilledAt (xs : List ℚ) (i : ℕ) : ℝ :=
  (sampleStd (windowAt 5 xs i)).getD 0

/-- pandas `Series.replace(0, pd.NA)` on one cell (ml_model.py lines 169-170). -/
def replaceZeroNA (o : Option ℚ) : Option ℚ :=
  match o with
  | some q => if q = 0 then none else some q
  | none => none

/-- pandas cellwise division with missing-value propagation: if either
operand is `NaN`/`NA` the quotient is `NaN`/`NA`; otherwise plain
division (the divisor is never an exact `0` on the call site below,
because of `replaceZeroNA`). -/
def optDiv (a b : Option ℚ) : Option ℚ :=
  match a, b with
  | some x, some y => some (x / y)
  | _, _ => none

/-- The cell `value - baseline`: `pressure_dev` / `current_dev`
(ml_model.py lines 166-167), where the baseline is the long-window
rolling mean `rolling(window=120, min_periods=30).mean()`. -/
def devAt (xs : List ℚ) (i : ℕ) : Option ℚ :=
  (rollMeanAt 120 30 xs i).map (fun b => xs.getD i 0 - b)

/-- The cells `pressure_dev_pct` / `current_dev_pct` (ml_model.py
lines 169-170): deviation divided by the long-window baseline with exact
zeros of the baseline first replaced by `pd.NA`.  A total function: no
input series makes it raise. -/
def devPctAt (xs : List ℚ) (i : ℕ) : Option ℚ :=
  optDiv (devAt xs i) (replaceZeroNA (rollMeanAt 120 30 xs i))

/-! ## Feature-column completion (`build_features_21`, ml_model.py 216-221)

The merged feature frame is embedded with an explicit column list and
rows of (column-name, value) cells. -/

/-- A pandas data frame, embedded as its column list plus one association
list of cells per row (the keys of every row are among `cols`). -/
structure PFrame where
  cols : List String
  rows : List (List (String × ℚ))
deriving DecidableEq, Repr

/-- ml_model.py lines 217-219:
`for col in FEATURE_COLS: if col not in merged.columns: merged[col] = 0.0` —
every feature column the frame does not already have is appended and
filled with `0.0` in every row. -/
def ensure_feature_cols (featureCols : List String) (f : PFrame) : PFrame :=
  featureCols.foldl
    (fun acc c =>
      if c ∈ acc.cols then acc
      else ⟨acc.cols ++ [c], acc.rows.map (fun r => r ++ [(c, 0)])⟩)
    f

/-! ## Time-bucket aggregation (`build_features_21`, ml_model.py 129-208) -/

/-- One raw `SensorLogs` reading (after the `DATEADD` fix of the
timestamp). -/
structure SensorReading where
  sensorId : ℤ
  ts : ℤ
  value : ℚ
deriving DecidableEq, Repr

/-- One raw `FlowMeterLogs` reading. -/
structure FlowReading where
  flowMeterId : ℤ
  ts : ℤ
  flowRate : ℚ
deriving DecidableEq, Repr

/-- One cell of the sensor pivot (ml_model.py lines 193-208): readings are
mapped to a pump by `site_map1`, restricted to `ALLOWED_PUMPS`, floored to
the minute, and pivoted over `(SitePumpID, ts_minute)` per `SensorID`
with `aggfunc="mean"` — the cell for a key is the MEAN of the values that
land on it (`none` when no reading lands on it). -/
def sensor_pivot_cell (siteMap : ℤ → Option ℤ) (allowed : List ℤ)
    (rows : List SensorReading) (pump sid t : ℤ) : Option ℚ :=
  let kept := rows.filter (fun r =>
    decide (siteMap r.sensorId = some pump) && decide (pump ∈ allowed) &&
    decide (floorMinute r.ts = t) && decide (r.sensorId = sid))
  if kept = [] then none else some (listMean (kept.map (·.value)))

/-- One cell of `flow_summary` (ml_model.py lines 129-140): readings are
mapped to a pump by `FLOWMETER_TO_PUMP`, restricted to `ALLOWED_PUMPS`,
floored to the minute, and grouped over `(SitePumpID, ts_minute)` with
`.mean()` — the cell for a key is the MEAN of the `FlowRate` values that
land on it (`none` when no reading lands on it). -/
def flow_summary_cell (fmMap : ℤ → Option ℤ) (allowed : List ℤ)
    (rows : List FlowReading) (pump t : ℤ) : Option ℚ :=
  let kept := rows.filter (fun r =>
    decide (fmMap r.flowMeterId = some pump) && decide (pump ∈ allowed) &&
    decide (floorMinute r.ts = t))
  if kept = [] then none else some (listMean (kept.map (·.flowRate)))

/-! ## The main entry `detect_anomalies` (ml_model.py 228-353)

`detect_anomalies` consumes the 21-feature table produced by
`build_features_21`; here that table is the input `df : List FRow`,
carrying the columns `detect_anomalies` reads.  The per-pump model bundle
(`MODEL_BY_PUMP`, loaded from the joblib file, external to the repo) is a
parameter `mt : ModelTable`; a bundle scores each row independently, so
the vectorized `scaler.transform` / `model.predict` /
`model.decision_function` pipeline is embedded as one per-row function
returning the prediction (`-1` = anomaly, `1` = normal) and the
continuous anomaly score. -/

/-- One row of the merged 21-feature table, restricted to the columns
that `detect_anomalies` reads (`SitePumpID`, `PumpLogDate`, `Name`, the
raw telemetry columns, `Conductivity_31489`, and the engineered columns
used by `build_reason`).  After the
`ffill().bfill().fillna(0)` step of `build_features_21` the telemetry columns hold plain numbers; the
two `_dev_pct` columns can still be `NaN` (the `replace(0, pd.NA)`
divide-by-zero guard), hence `Option ℚ`. -/
structure FRow where
  pumpId : ℤ
  ts : ℤ
  name : String
  frequency : ℚ
  voltage : ℚ
  current : ℚ
  pressure : ℚ
  conductivity : ℚ
  pressureDevPct : Option ℚ
  currentDevPct : Option ℚ
  flowRate : ℚ
  flowRateRollMean5 : ℚ
deriving DecidableEq, Repr

/-- A row together with the model outputs attached to it
(`g2["pred"]`, `g2["anom_score"]`, ml_model.py lines 251-253). -/
structure SRow where
  row : FRow
  pred : ℤ
  score : ℚ
deriving DecidableEq, Repr

/-- A per-pump model bundle, reduced to its row-scoring behaviour:
prediction (`-1` anomaly / `1` normal) and anomaly score (lower = more
anomalous). -/
def PumpModel : Type := FRow → ℤ × ℚ

/-- The table `MODEL_BY_PUMP`: pump id to optional model bundle. -/
def ModelTable : Type := ℤ → Option PumpModel

/-- The record returned for one anomaly (ml_model.py lines 337-351). -/
structure ARec where
  pumpId : ℤ
  pumpName : String
  timestamp : ℤ
  frequency : ℚ
  voltage : ℚ
  current : ℚ
  pressure : ℚ
  conductivity : ℚ
  score : ℚ
  severity : String
  reason : String
deriving DecidableEq, Repr

/-- A Python runtime error surfaced by `detect_anomalies`. -/
inductive PyErr where
  | unboundLocal (name : String)
deriving DecidableEq, Repr

/-- The grouping `df.groupby("SitePumpID")` (ml_model.py line 237): the groups are
iterated in ascending key order; inside each group the row order of the frame
is preserved. -/
def groups (df : List FRow) : List (ℤ × List FRow) :=
  (List.insertionSort (fun a b : ℤ => a ≤ b) (df.map (fun r => r.pumpId)).dedup).map
    (fun p => (p, df.filter (fun r => r.pumpId = p)))

/-- Attach `pred` and `anom_score` to every row of one pump group
(ml_model.py lines 245-253). -/
def scoredGroup (m : PumpModel) (rows : List FRow) : List SRow :=
  rows.map (fun r => ⟨r, (m r).1, (m r).2⟩)

/-- The per-group scored frames appended to `all_rows` over a list of
groups: exactly the groups whose pump has a bundle, in group order. -/
def bundledScored (mt : ModelTable) : List (ℤ × List FRow) → List (List SRow)
  | [] => []
  | (p, rows) :: rest =>
    match mt p with
    | none => bundledScored mt rest
    | some m => scoredGroup m rows :: bundledScored mt rest

/-- All scored rows an invocation produces: the concatenation of the
scored frames of every pump group that has a model bundle. -/
def scoredAll (mt : ModelTable) (df : List FRow) : List SRow :=
  (bundledScored mt (groups df)).flatten

/-- The filter `merged[merged["pred"] == -1]` (ml_model.py line 262). -/
def anomaliesOf (merged : List SRow) : List SRow :=
  merged.filter (fun s => s.pred = -1)

/-- The sort order of ml_model.py lines 267-270:
`sort_values(["PumpLogDate", "anom_score"], ascending=[False, True])` —
newer timestamp first, and lower score first within equal timestamps. -/
def anomLE (s t : SRow) : Prop :=
  t.row.ts < s.row.ts ∨ (s.row.ts = t.row.ts ∧ s.score ≤ t.score)

instance : DecidableRel anomLE := fun s t =>
  inferInstanceAs (Decidable (t.row.ts < s.row.ts ∨ (s.row.ts = t.row.ts ∧ s.score ≤ t.score)))

instance : IsTotal SRow anomLE where
  total a b := by
    unfold anomLE
    rcases lt_trichotomy a.row.ts b.row.ts with h | h | h
    · exact Or.inr (Or.inl h)
    · rcases le_total a.score b.score with hs | hs
      · exact Or.inl (Or.inr ⟨h, hs⟩)
      · exact Or.inr (Or.inr ⟨h.symm, hs⟩)
    · exact Or.inl (Or.inl h)

instance : IsTrans SRow anomLE where
  trans a b c hab hbc := by
    unfold anomLE at *
    rcases hab with h1 | ⟨h1, h1s⟩ <;> rcases hbc with h2 | ⟨h2, h2s⟩
    · exact Or.inl (lt_trans h2 h1)
    · exact Or.inl (h2 ▸ h1)
    · exact Or.inl (h1 ▸ h2)
    · exact Or.inr ⟨h1.trans h2, le_trans h1s h2s⟩

/-- Lines 266-284 of ml_model.py applied to the current `anomalies`
frame: sort newest-first / most-anomalous-first, compute the `0.10` and
`0.25` linear-interpolation quantiles of the `anom_score` column, and
attach the severity column. -/
def sevAssign (anomalies : List SRow) : List (SRow × String) :=
  let sortedA := List.insertionSort anomLE anomalies
  let qLow := quantileLinear (1 / 10) (sortedA.map (fun s => s.score))
  let qMed := quantileLinear (1 / 4) (sortedA.map (fun s => s.score))
  sortedA.map (fun s => (s, map_severity s.score qLow qMed))

/-- The mutable locals of the per-pump loop that survive it: `all_rows`,
and — once at least one bundled group has been processed — the pair of
the Python locals `merged` and `anomalies` (the latter carrying its
severity column).  `post = none` embeds the state in which `merged` and
`anomalies` are still unbound names. -/
structure LoopSt where
  allRows : List (List SRow)
  post : Option (List SRow × List (SRow × String))

/-- Outcome of the per-pump loop: either one of the early `return []`
statements fired, or the loop ran to completion in state `st`. -/
inductive LoopOut where
  | early
  | finished (st : LoopSt)

/-- The per-pump loop of `detect_anomalies` (ml_model.py lines 237-284),
one iteration per group:
pumps without a bundle are skipped (`continue`); otherwise the scored
group is appended to `all_rows`, the dead guard
`if not all_rows: return []` is checked, `merged` is rebuilt as the
concatenation of `all_rows`, the anomaly filter and the
`if anomalies.empty: return []` guard run, and the sort / quantile /
severity block recomputes `anomalies` — all inside the loop body. -/
def runLoop (mt : ModelTable) : List (ℤ × List FRow) → LoopSt → LoopOut
  | [], st => .finished st
  | (p, rows) :: rest, st =>
    match mt p with
    | none => runLoop mt rest st
    | some m =>
      let g2 := scoredGroup m rows
      let allRows := st.allRows ++ [g2]
      if allRows = [] then .early
      else
        let merged := allRows.flatten
        if anomaliesOf merged = [] then .early
        else runLoop mt rest ⟨allRows, some (merged, sevAssign (anomaliesOf merged))⟩

/-- The function `build_reason` (ml_model.py lines 292-332): the four threshold checks
in order (pressure deviation pct, current deviation pct, flow rate versus
its short rolling mean, conductivity versus the population median), each
appending its sentence; a generic fallback sentence when none fires.
`0.35 = 7/20`, `0.7 = 7/10`, `1.3 = 13/10`.  The Python
`fr_mean5 not in (0, float("inf"))` guard is the `≠ 0` test (no infinite
rational exists), and the `pdp == pdp` NaN test is the `some` match. -/
def build_reason (condBaseline : ℚ) (r : FRow) : String :=
  let reasons : List String :=
    (match r.pressureDevPct with
     | some v =>
       if v > 7 / 20 then ["Pressure significantly higher than typical baseline."]
       else if v < -(7 / 20) then ["Pressure significantly lower than typical baseline."]
       else []
     | none => []) ++
    (match r.currentDevPct with
     | some v =>
       if v > 7 / 20 then ["Current draw higher than expected for this pump."]
       else if v < -(7 / 20) then ["Current draw lower than expected for this pump."]
       else []
     | none => []) ++
    (if r.flowRateRollMean5 ≠ 0 then
       (if r.flowRate < 7 / 10 * r.flowRateRollMean5 then
          ["Flow rate has dropped compared to recent history."]
        else if r.flowRate > 13 / 10 * r.flowRateRollMean5 then
          ["Flow rate is spiking compared to recent history."]
        else [])
     else []) ++
    (if condBaseline > 0 ∧ r.conductivity > 13 / 10 * condBaseline then
       ["Conductivity higher than typical for this pump."]
     else [])
  if reasons = [] then
    "Model flagged this point as anomalous based on combined sensor patterns."
  else String.intercalate " " reasons

/-- One element of the final payload (ml_model.py lines 337-351). -/
def buildRecord (condBaseline : ℚ) (s : SRow) (sev : String) : ARec :=
  { pumpId := s.row.pumpId
    pumpName := s.row.name
    timestamp := s.row.ts
    frequency := s.row.frequency
    voltage := s.row.voltage
    current := s.row.current
    pressure := s.row.pressure
    conductivity := s.row.conductivity
    score := s.score
    severity := sev
    reason := build_reason condBaseline s.row }

/-- The function `detect_anomalies` (ml_model.py lines 228-353) from the feature table
on: run the per-pump loop; afterwards read the loop locals `merged`
(for the conductivity median baseline — the `Conductivity_31489` column
always exists in the 21-feature schema) and `anomalies` (for the final
payload).  When no bundled group was processed, those names were never
bound and Python raises `UnboundLocalError` at the
`merged.columns` access of line 289 — embedded as the `Except` error. -/
def detect_anomalies (mt : ModelTable) (df : List FRow) : Except PyErr (List ARec) :=
  match runLoop mt (groups df) ⟨[], none⟩ with
  | .early => .ok []
  | .finished st =>
    match st.post with
    | none => .error (.unboundLocal "merged")
    | some (merged, withSev) =>
      let condBaseline := listMedian (merged.map (fun s => s.row.conductivity))
      .ok (withSev.map (fun p => buildRecord condBaseline p.1 p.2))

/-- The output order claimed for the anomaly feed: newer timestamp
first; within equal timestamps, lower (more anomalous) score first. -/
def recOrd (a b : ARec) : Prop :=
  b.timestamp < a.timestamp ∨ (a.timestamp = b.timestamp ∧ a.score ≤ b.score)

/-! ## Loop invariants -/

/-- Groups whose pump has no bundle are skipped without touching the loop
state. -/
lemma runLoop_skip (mt : ModelTable) (pre l : List (ℤ × List FRow)) (st : LoopSt)
    (h : ∀ g ∈ pre, mt g.1 = none) :
    runLoop mt (pre ++ l) st = runLoop mt l st := by
  induction pre with
  | nil => rfl
  | cons g rest ih =>
    have hg : mt g.1 = none := h g (List.mem_cons_self g rest)
    obtain ⟨p, rows⟩ := g
    simp only [List.cons_append, runLoop, hg]
    exact ih (fun g hgm => h g (List.mem_cons_of_mem _ hgm))

/-- What a completed run of the per-pump loop guarantees: `all_rows` has
grown by exactly the scored frames of the bundled groups, and the pair of
loop locals (`merged`, `anomalies`-with-severity) is either untouched
(when no group had a bundle) or holds the concatenation of all scored
frames together with its nonempty anomaly subset. -/
lemma runLoop_finished (mt : ModelTable) :
    ∀ (gs : List (ℤ × List FRow)) (A : List (List SRow))
      (post : Option (List SRow × List (SRow × String))) (st' : LoopSt),
      runLoop mt gs ⟨A, post⟩ = .finished st' →
      st'.allRows = A ++ bundledScored mt gs ∧
        ((st'.post = post ∧ bundledScored mt gs = []) ∨
          ∃ M, st'.post = some (M, sevAssign (anomaliesOf M)) ∧
            M = (A ++ bundledScored mt gs).flatten ∧ anomaliesOf M ≠ [])
  | [], A, post, st', h => by
    simp only [runLoop] at h
    cases h
    exact ⟨by simp [bundledScored], Or.inl ⟨rfl, by simp [bundledScored]⟩⟩
  | (p, rows) :: rest, A, post, st', h => by
    cases hmp : mt p with
    | none =>
      simp only [runLoop, hmp] at h
      obtain ⟨h1, h2⟩ := runLoop_finished mt rest A post st' h
      simp only [bundledScored, hmp]
      exact ⟨h1, h2⟩
    | some m =>
      simp only [runLoop, hmp] at h
      rw [if_neg (by simp)] at h
      by_cases han : anomaliesOf ((A ++ [scoredGroup m rows]).flatten) = []
      · rw [if_pos han] at h
        cases h
      · rw [if_neg han] at h
        obtain ⟨h1, h2⟩ := runLoop_finished mt rest (A ++ [scoredGroup m rows])
          (some ((A ++ [scoredGroup m rows]).flatten,
            sevAssign (anomaliesOf ((A ++ [scoredGroup m rows]).flatten)))) st' h
        constructor
        · rw [h1]
          simp [bundledScored, hmp, List.append_assoc]
        · rcases h2 with ⟨hp, hb⟩ | ⟨M, hM1, hM2, hM3⟩
          · refine Or.inr ⟨(A ++ [scoredGroup m rows]).flatten, hp, ?_, han⟩
            simp [bundledScored, hmp, hb]
          · refine Or.inr ⟨M, hM1, ?_, hM3⟩
            rw [hM2]
            simp [bundledScored, hmp, List.append_assoc]

/-! ## Claim C1 -/

/-- C1: the claim says that on an empty input window `detect_anomalies`
returns the empty result list and raises no error.  The code does the
opposite: with an empty feature table the `groupby` loop body never runs,
the local `merged` is never bound, and the `merged.columns` access of
line 289 raises `UnboundLocalError` — for every model-bundle table. -/
theorem detect_anomalies_empty_frame_raises (mt : ModelTable) :
    detect_anomalies mt [] = .error (PyErr.unboundLocal "merged") := rfl

/-! ## Claim C7 -/

/-- A telemetry row for a pump id (99999) that has no entry in the
model-bundle table. -/
def rowUnbundled : FRow :=
  ⟨99999, 1000, "Well X", 50, 480, 10, 100, 0, none, none, 0, 0⟩

/-- C7: the claim says rows of a pump with no model bundle are silently
skipped without error.  Skipping is indeed silent while some other pump
has a bundle, and no record ever carries an unbundled pump id — but when
every pump in the window lacks a bundle (here: an empty bundle table and
one row for pump 99999), the loop never binds `merged` and the function
raises `UnboundLocalError` instead of returning the empty list. -/
theorem detect_anomalies_only_unbundled_pump_raises :
    detect_anomalies (fun _ => none) [rowUnbundled] =
      .error (PyErr.unboundLocal "merged") := rfl

/-! ## Claim C2 -/

/-- C2: when the first pump group in grouping order that has a model
bundle contains no rows predicted `-1`, `detect_anomalies` returns the
empty list even if a later pump group does contain anomalous rows: the
anomaly filter and the `if anomalies.empty: return []` guard run inside
the per-pump loop, on the rows accumulated so far, rather than once after
all pump groups are merged. -/
theorem detect_anomalies_first_bundled_group_clean_returns_empty
    (mt : ModelTable) (df : List FRow) (pre rest : List (ℤ × List FRow))
    (p : ℤ) (rows : List FRow) (m : PumpModel)
    (hsplit : groups df = pre ++ (p, rows) :: rest)
    (hpre : ∀ g ∈ pre, mt g.1 = none)
    (hm : mt p = some m)
    (hclean : ∀ r ∈ rows, (m r).1 ≠ -1)
    (hlater : ∃ g ∈ rest, ∃ m2, mt g.1 = some m2 ∧ ∃ r ∈ g.2, (m2 r).1 = -1) :
    detect_anomalies mt df = .ok [] := by
  unfold detect_anomalies
  rw [hsplit, runLoop_skip mt pre _ _ hpre]
  simp only [runLoop, hm]
  rw [if_neg (by simp)]
  have han : anomaliesOf (([] ++ [scoredGroup m rows]).flatten) = [] := by
    simp only [List.nil_append, List.flatten_cons, List.flatten_nil, List.append_nil]
    simp only [anomaliesOf, List.filter_eq_nil_iff, scoredGroup, List.mem_map]
    rintro s ⟨r, hr, rfl⟩
    simpa using hclean r hr
  rw [if_pos han]

/-! ## Shape of a successful run -/

/-- Every successful invocation either took one of the early
`return []` exits, or built its payload from the severity-annotated,
sorted anomaly subset of all scored rows. -/
lemma detect_anomalies_ok_shape (mt : ModelTable) (df : List FRow) (results : List ARec)
    (h : detect_anomalies mt df = .ok results) :
    results = [] ∨
      (anomaliesOf (scoredAll mt df) ≠ [] ∧
        results = (sevAssign (anomaliesOf (scoredAll mt df))).map
          (fun q => buildRecord
            (listMedian ((scoredAll mt df).map (fun s => s.row.conductivity))) q.1 q.2)) := by
  unfold detect_anomalies at h
  cases hrun : runLoop mt (groups df) ⟨[], none⟩ with
  | early =>
    simp only [hrun] at h
    exact Or.inl (by injection h with h; exact h.symm)
  | finished st =>
    simp only [hrun] at h
    obtain ⟨hA, hpost⟩ := runLoop_finished mt (groups df) [] none st hrun
    rcases hpost with ⟨hp, hb⟩ | ⟨M, hM1, hM2, hM3⟩
    · rw [hp] at h; cases h
    · have hMs : M = scoredAll mt df := by
        rw [hM2]; simp [scoredAll]
      simp only [hM1] at h
      refine Or.inr ⟨hMs ▸ hM3, ?_⟩
      injection h with h
      rw [← h, hMs]

/-! ## Claim C5 -/

/-- C5: every list `detect_anomalies` returns is totally ordered by
timestamp descending and, within equal timestamps, by anomaly score
ascending: the code sorts the anomaly frame with
`sort_values(["PumpLogDate", "anom_score"], ascending=[False, True])` and
every later step preserves that order. -/
theorem detect_anomalies_output_sorted (mt : ModelTable) (df : List FRow)
    (results : List ARec) (h : detect_anomalies mt df = .ok results) :
    List.Pairwise recOrd results := by
  rcases detect_anomalies_ok_shape mt df results h with rfl | ⟨hne, hres⟩
  · exact List.Pairwise.nil
  · rw [hres]
    simp only [sevAssign, List.map_map]
    refine List.Pairwise.map _ ?_
      (List.sorted_insertionSort anomLE (anomaliesOf (scoredAll mt df)))
    intro a b hab
    rcases hab with h1 | ⟨h1, h2⟩
    · exact Or.inl h1
    · exact Or.inr ⟨h1, h2⟩

/-! ## Claim C6 -/

/-- C6: every record in the returned list stems from a scored row the
model bundle labeled anomalous (`pred == -1`): the payload is built only
from `merged[merged["pred"] == -1]`. -/
theorem detect_anomalies_only_anomalous_rows (mt : ModelTable) (df : List FRow)
    (results : List ARec) (h : detect_anomalies mt df = .ok results)
    (r : ARec) (hr : r ∈ results) :
    ∃ s : SRow, s ∈ scoredAll mt df ∧ s.pred = -1 ∧
      r.pumpId = s.row.pumpId ∧ r.timestamp = s.row.ts ∧ r.score = s.score := by
  rcases detect_anomalies_ok_shape mt df results h with rfl | ⟨hne, hres⟩
  · cases hr
  · rw [hres] at hr
    obtain ⟨q, hq, rfl⟩ := List.mem_map.mp hr
    simp only [sevAssign, List.mem_map] at hq
    obtain ⟨s, hs, rfl⟩ := hq
    have hmem : s ∈ anomaliesOf (scoredAll mt df) := by simpa using hs
    have hfil := List.mem_filter.mp hmem
    refine ⟨s, hfil.1, by simpa using hfil.2, rfl, rfl, rfl⟩

/-! ## Claim C8 -/

/-- The three branches of `map_severity`, as an exact characterisation. -/
lemma map_severity_spec (sc qL qM : ℚ) :
    (map_severity sc qL qM = "HIGH" ↔ sc ≤ qL) ∧
    (map_severity sc qL qM = "MEDIUM" ↔ (¬ sc ≤ qL ∧ sc ≤ qM)) ∧
    (map_severity sc qL qM = "LOW" ↔ (¬ sc ≤ qL ∧ ¬ sc ≤ qM)) := by
  unfold map_severity
  by_cases h1 : sc ≤ qL
  · rw [if_pos h1]
    exact ⟨⟨fun _ => h1, fun _ => rfl⟩,
      ⟨fun hc => absurd hc (by decide), fun hc => absurd h1 hc.1⟩,
      ⟨fun hc => absurd hc (by decide), fun hc => absurd h1 hc.1⟩⟩
  · rw [if_neg h1]
    by_cases h2 : sc ≤ qM
    · rw [if_pos h2]
      exact ⟨⟨fun hc => absurd hc (by decide), fun hc => absurd hc h1⟩,
        ⟨fun _ => ⟨h1, h2⟩, fun _ => rfl⟩,
        ⟨fun hc => absurd hc (by decide), fun hc => absurd h2 hc.2⟩⟩
    · rw [if_neg h2]
      exact ⟨⟨fun hc => absurd hc (by decide), fun hc => absurd hc h1⟩,
        ⟨fun hc => absurd hc (by decide), fun hc => absurd hc.2 h2⟩,
        ⟨fun _ => ⟨h1, h2⟩, fun _ => rfl⟩⟩

/-- C8: the severity bucket of each returned record is exactly the
linear-interpolation quantile rule over the score population the code
quantizes (the anomaly scores of the emitted rows, ml_model.py lines
272-284): score at or below the 0.10 quantile is HIGH, otherwise at or
below the 0.25 quantile is MEDIUM, otherwise LOW. -/
theorem detect_anomalies_severity_quantile_rule (mt : ModelTable) (df : List FRow)
    (results : List ARec) (h : detect_anomalies mt df = .ok results)
    (r : ARec) (hr : r ∈ results) :
    (r.severity = "HIGH" ↔
      r.score ≤ quantileLinear (1 / 10) (results.map (fun x => x.score))) ∧
    (r.severity = "MEDIUM" ↔
      (¬ r.score ≤ quantileLinear (1 / 10) (results.map (fun x => x.score)) ∧
        r.score ≤ quantileLinear (1 / 4) (results.map (fun x => x.score)))) ∧
    (r.severity = "LOW" ↔
      (¬ r.score ≤ quantileLinear (1 / 10) (results.map (fun x => x.score)) ∧
        ¬ r.score ≤ quantileLinear (1 / 4) (results.map (fun x => x.score)))) := by
  rcases detect_anomalies_ok_shape mt df results h with rfl | ⟨hne, hres⟩
  · cases hr
  · have hpop : results.map (fun x => x.score) =
        (List.insertionSort anomLE (anomaliesOf (scoredAll mt df))).map
          (fun s => s.score) := by
      rw [hres]
      simp [sevAssign, List.map_map, buildRecord]
    rw [hres] at hr
    obtain ⟨q, hq, rfl⟩ := List.mem_map.mp hr
    simp only [sevAssign, List.mem_map] at hq
    obtain ⟨s, hs, rfl⟩ := hq
    rw [hpop]
    simpa only [buildRecord] using map_severity_spec s.score
      (quantileLinear (1 / 10)
        ((List.insertionSort anomLE (anomaliesOf (scoredAll mt df))).map
          (fun s => s.score)))
      (quantileLinear (1 / 4)
        ((List.insertionSort anomLE (anomaliesOf (scoredAll mt df))).map
          (fun s => s.score)))

/-! ## Concrete fixtures for the witnesses -/

/-- A model bundle that labels every row normal. -/
def mAllNormal : PumpModel := fun _ => (1, 0)

/-- A model bundle that labels every row anomalous, scoring it by its
pressure. -/
def mByPressure : PumpModel := fun r => (-1, r.pressure)

/-- Telemetry row of pump 1 (pressure 4). -/
def rowA : FRow := ⟨1, 100, "Well 1", 50, 480, 10, 4, 0, none, none, 0, 0⟩

/-- Telemetry row of pump 1 (pressure 9, later timestamp). -/
def rowB : FRow := ⟨1, 200, "Well 1", 50, 480, 10, 9, 0, none, none, 0, 0⟩

/-- Telemetry row of pump 2. -/
def rowC : FRow := ⟨2, 150, "Well 2", 50, 480, 10, 7, 0, none, none, 0, 0⟩

/-- Bundle table: pump 1 scores all-normal, pump 2 all-anomalous. -/
def mtSplit : ModelTable :=
  fun p => if p = 1 then some mAllNormal else if p = 2 then some mByPressure else none

/-- Bundle table: only pump 1 has a bundle, the all-anomalous one. -/
def mtOne : ModelTable := fun p => if p = 1 then some mByPressure else none

/-- The default record used to pick elements out of computed lists. -/
def dRec : ARec := ⟨0, "", 0, 0, 0, 0, 0, 0, 0, "", ""⟩

/-- C2 witness: pump 1 (all-normal bundle) groups first, the bundle of pump 2
would flag its row, yet the invocation returns the empty list. -/
theorem detect_anomalies_first_bundled_group_clean_returns_empty_witness :
    detect_anomalies mtSplit [rowA, rowC] = .ok [] :=
  detect_anomalies_first_bundled_group_clean_returns_empty mtSplit [rowA, rowC]
    [] [(2, [rowC])] 1 [rowA] mAllNormal rfl (by simp) rfl
    (fun r _ => show (1 : ℤ) ≠ -1 by decide)
    ⟨(2, [rowC]), by simp, mByPressure, rfl, rowC, by simp, rfl⟩

/-- The two records the run `detect_anomalies mtOne [rowA, rowB]`
produces, newest first. -/
def recNewLow : ARec :=
  ⟨1, "Well 1", 200, 50, 480, 10, 9, 0, 9, "LOW",
    "Model flagged this point as anomalous based on combined sensor patterns."⟩

/-- The older, most anomalous record of the same run. -/
def recOldHigh : ARec :=
  ⟨1, "Well 1", 100, 50, 480, 10, 4, 0, 4, "HIGH",
    "Model flagged this point as anomalous based on combined sensor patterns."⟩

/-- Concrete evaluation of the run used by the witnesses below: pump 1
with the all-anomalous bundle on two rows (scores 9 and 4; the 0.10
quantile of the population is 4.5, the 0.25 quantile 5.25). -/
lemma detect_anomalies_mtOne_run :
    detect_anomalies mtOne [rowA, rowB] = .ok [recNewLow, recOldHigh] := by
  unfold detect_anomalies
  norm_num [groups, runLoop, mtOne, scoredGroup, mByPressure, rowA, rowB, anomaliesOf,
    sevAssign, quantileLinear, map_severity, listMean, listMedian, buildRecord, build_reason,
    List.insertionSort, List.orderedInsert, anomLE, recNewLow, recOldHigh,
    List.dedup, List.pwFilter, List.cons_ne_nil, String.intercalate]

/-- C5 witness: the sortedness theorem applied to a concrete
two-anomaly run (timestamps 200 then 100). -/
theorem detect_anomalies_output_sorted_witness :
    List.Pairwise recOrd [recNewLow, recOldHigh] :=
  detect_anomalies_output_sorted mtOne [rowA, rowB] [recNewLow, recOldHigh]
    detect_anomalies_mtOne_run

/-- C6 witness: the anomalous-origin theorem applied to the first record
of a concrete run. -/
theorem detect_anomalies_only_anomalous_rows_witness :
    ∃ s : SRow, s ∈ scoredAll mtOne [rowA, rowB] ∧ s.pred = -1 ∧
      recNewLow.pumpId = s.row.pumpId ∧ recNewLow.timestamp = s.row.ts ∧
      recNewLow.score = s.score :=
  detect_anomalies_only_anomalous_rows mtOne [rowA, rowB] [recNewLow, recOldHigh]
    detect_anomalies_mtOne_run recNewLow (by simp)

/-- C8 witness: the quantile rule theorem applied to the HIGH record of a
concrete run (scores 4 and 9; the 0.10 quantile is 4.5, the 0.25 quantile
is 5.25). -/
theorem detect_anomalies_severity_quantile_rule_witness :
    (recOldHigh.severity = "HIGH" ↔
      recOldHigh.score ≤
        quantileLinear (1 / 10) (([recNewLow, recOldHigh]).map (fun x => x.score))) ∧
    (recOldHigh.severity = "MEDIUM" ↔
      (¬ recOldHigh.score ≤
        quantileLinear (1 / 10) (([recNewLow, recOldHigh]).map (fun x => x.score)) ∧
        recOldHigh.score ≤
          quantileLinear (1 / 4) (([recNewLow, recOldHigh]).map (fun x => x.score)))) ∧
    (recOldHigh.severity = "LOW" ↔
      (¬ recOldHigh.score ≤
        quantileLinear (1 / 10) (([recNewLow, recOldHigh]).map (fun x => x.score)) ∧
        ¬ recOldHigh.score ≤
          quantileLinear (1 / 4) (([recNewLow, recOldHigh]).map (fun x => x.score)))) :=
  detect_anomalies_severity_quantile_rule mtOne [rowA, rowB] [recNewLow, recOldHigh]
    detect_anomalies_mtOne_run recOldHigh (by simp)

/-! ## Claim C3 -/

/-- C3 counterexample: the claim says a feature column the aligned table
cannot produce triggers a fatal configuration error at bundle-load
validation and is never silently zero-filled.  The code has no such
validation: `build_features_21` (ml_model.py lines 217-219) silently
appends the missing column `"Ghost"` and fills it with `0.0`, returning a
normal frame instead of raising. -/
theorem ensure_feature_cols_zero_fill_counterexample :
    ensure_feature_cols ["Ghost"] ⟨["A"], [[("A", 5)]]⟩ =
      ⟨["A", "Ghost"], [[("A", 5), ("Ghost", 0)]]⟩ ∧
    "Ghost" ∉ (["A"] : List String) := by
  exact ⟨rfl, by decide⟩

/-- One step of the `ensure_feature_cols` fold. -/
lemma ensure_feature_cols_cons (d : String) (fcs : List String) (f : PFrame) :
    ensure_feature_cols (d :: fcs) f =
      ensure_feature_cols fcs
        (if d ∈ f.cols then f
         else ⟨f.cols ++ [d], f.rows.map (fun r => r ++ [(d, 0)])⟩) := rfl

/-- Once a column is present with a constant cell value, the rest of the
fold keeps it and its value. -/
lemma ensure_feature_cols_preserves (fcs : List String) :
    ∀ f : PFrame, ∀ c : String, c ∈ f.cols →
      (∀ r ∈ f.rows, r.lookup c = some 0) →
      c ∈ (ensure_feature_cols fcs f).cols ∧
        ∀ r ∈ (ensure_feature_cols fcs f).rows, r.lookup c = some 0 := by
  induction fcs with
  | nil => intro f c hin hval; exact ⟨hin, hval⟩
  | cons d fcs ih =>
    intro f c hin hval
    rw [ensure_feature_cols_cons]
    by_cases hd : d ∈ f.cols
    · rw [if_pos hd]
      exact ih f c hin hval
    · rw [if_neg hd]
      refine ih _ c (List.mem_append_left _ hin) ?_
      rintro r hr
      simp only [List.mem_map] at hr
      obtain ⟨r0, hr0, rfl⟩ := hr
      rw [List.lookup_append, hval r0 hr0]
      rfl

/-- C3 amended: when the declared feature order of the bundle requires a
column the aligned feature table cannot produce, `build_features_21` does
not raise at all — it silently appends the column and fills it with `0.0`
in every row (the legacy checkpoint pipeline instead raises `ValueError`
at scoring time, not at bundle-load time). -/
theorem ensure_feature_cols_silently_zero_fills
    (featureCols : List String) (f : PFrame) (c : String)
    (hc : c ∈ featureCols) (hnew : c ∉ f.cols)
    (hkeys : ∀ r ∈ f.rows, ∀ p ∈ r, p.1 ∈ f.cols) :
    c ∈ (ensure_feature_cols featureCols f).cols ∧
      ∀ r ∈ (ensure_feature_cols featureCols f).rows, r.lookup c = some 0 := by
  induction featureCols generalizing f with
  | nil => cases hc
  | cons d fcs ih =>
    rw [ensure_feature_cols_cons]
    by_cases hd : d ∈ f.cols
    · rw [if_pos hd]
      rcases List.mem_cons.mp hc with rfl | hc2
      · exact absurd hd hnew
      · exact ih f hc2 hnew hkeys
    · rw [if_neg hd]
      by_cases hcd : c = d
      · subst hcd
        refine ensure_feature_cols_preserves fcs _ c (by simp) ?_
        rintro r hr
        simp only [List.mem_map] at hr
        obtain ⟨r0, hr0, rfl⟩ := hr
        have hnone : r0.lookup c = none := by
          rw [List.lookup_eq_none_iff]
          intro p hp
          have := hkeys r0 hr0 p hp
          simp only [bne_iff_ne, ne_eq]
          intro hcp
          exact hnew (hcp ▸ this)
        rw [List.lookup_append, hnone]
        simp
      · rcases List.mem_cons.mp hc with rfl | hc2
        · exact absurd rfl hcd
        · refine ih _ hc2 ?_ ?_
          · intro hmem
            rcases List.mem_append.mp hmem with h | h
            · exact hnew h
            · simp only [List.mem_singleton] at h
              exact hcd h
          · rintro r hr p hp
            simp only [List.mem_map] at hr
            obtain ⟨r0, hr0, rfl⟩ := hr
            rcases List.mem_append.mp hp with hp0 | hp1
            · exact List.mem_append_left _ (hkeys r0 hr0 p hp0)
            · simp only [List.mem_singleton] at hp1
              subst hp1
              exact List.mem_append_right _ (by simp)

/-- C3 witness: the amended zero-fill theorem applied to the concrete
ghost column. -/
theorem ensure_feature_cols_silently_zero_fills_witness :
    "Ghost" ∈ (ensure_feature_cols ["Ghost"] ⟨["A"], [[("A", 5)]]⟩).cols ∧
      ∀ r ∈ (ensure_feature_cols ["Ghost"] ⟨["A"], [[("A", 5)]]⟩).rows,
        r.lookup "Ghost" = some 0 :=
  ensure_feature_cols_silently_zero_fills ["Ghost"] ⟨["A"], [[("A", 5)]]⟩ "Ghost"
    (by decide) (by decide) (by decide)

/-! ## Claim C4 -/

/-- A one-sensor site map used by the C4 fixtures (sensor 31487 belongs
to pump 47366, as in `site_map1`). -/
def siteMapW : ℤ → Option ℤ := fun s => if s = 31487 then some 47366 else none

/-- The flow-meter map entry used by the C4 fixtures (meter 5077 belongs
to pump 47366, as in `FLOWMETER_TO_PUMP`). -/
def fmMapW : ℤ → Option ℤ := fun m => if m = 5077 then some 47366 else none

/-- C4 counterexample: the claim says the sensor pivot aggregates
duplicate readings in one `(pumpId, bucketStart)` bucket by taking the
LAST value in timestamp order.  The 21-feature pipeline pivots with
`aggfunc="mean"`: two readings of sensor 31487 with values 1 and 3 in the
same minute produce the cell value 2 — the mean — and not the last value
3. -/
theorem sensor_pivot_mean_not_last_counterexample :
    sensor_pivot_cell siteMapW [47366]
        [⟨31487, 60, 1⟩, ⟨31487, 90, 3⟩] 47366 31487 60 = some 2 ∧
      (2 : ℚ) ≠ 3 := by
  constructor
  · have hfd : Int.fdiv 90 60 = 1 := by decide
    norm_num [sensor_pivot_cell, listMean, floorMinute, siteMapW, List.filter, hfd]
    exact fun hcontra => absurd hcontra (by simp)
  · norm_num

/-- C4 amended: duplicate readings landing in the same bucket are
aggregated by their MEAN for both streams — flow via
`groupby(...).mean()` as the claim states, and the sensor pivot likewise
via `pivot_table(..., aggfunc="mean")`, not by last value in timestamp
order (a last-value pivot exists only in the legacy checkpoint pipeline,
keyed by raw timestamp). -/
theorem bucket_duplicates_aggregate_by_mean
    (siteMap fmMap : ℤ → Option ℤ) (allowed : List ℤ)
    (pump sid fm t1 t2 : ℤ) (a b : ℚ)
    (hb : floorMinute t2 = floorMinute t1)
    (hs : siteMap sid = some pump) (hf : fmMap fm = some pump)
    (ha : pump ∈ allowed) :
    sensor_pivot_cell siteMap allowed [⟨sid, t1, a⟩, ⟨sid, t2, b⟩] pump sid (floorMinute t1)
        = some ((a + b) / 2) ∧
      flow_summary_cell fmMap allowed [⟨fm, t1, a⟩, ⟨fm, t2, b⟩] pump (floorMinute t1)
        = some ((a + b) / 2) := by
  constructor
  · simp [sensor_pivot_cell, listMean, hs, hb, ha, List.filter]
  · simp [flow_summary_cell, listMean, hf, hb, ha, List.filter]

/-- C4 witness: the mean-aggregation theorem applied to two concrete
readings (values 1 and 3 in the same minute bucket, cell value 2). -/
theorem bucket_duplicates_aggregate_by_mean_witness :
    sensor_pivot_cell siteMapW [47366]
        [⟨31487, 60, 1⟩, ⟨31487, 90, 3⟩] 47366 31487 (floorMinute 60)
        = some ((1 + 3) / 2) ∧
      flow_summary_cell fmMapW [47366]
        [⟨5077, 60, 1⟩, ⟨5077, 90, 3⟩] 47366 (floorMinute 60)
        = some ((1 + 3) / 2) :=
  bucket_duplicates_aggregate_by_mean siteMapW fmMapW [47366] 47366 31487 5077
    60 90 1 3 (by decide) rfl rfl (by decide)

/-! ## Claim C9 -/

/-- C9: the short-window rolling standard deviation
(`rolling(window=5, min_periods=1).std().fillna(0)`) of a window holding
fewer than two observations is exactly `0`, never missing: pandas yields
`NaN` for the one-point sample standard deviation and the chained
`fillna(0)` turns it into `0.0`. -/
theorem rolling_std_short_window_zero (xs : List ℚ) (i : ℕ)
    (hi : i < xs.length) (h : (windowAt 5 xs i).length < 2) :
    rollStd5FilledAt xs i = 0 := by
  unfold rollStd5FilledAt sampleStd sampleVar
  rw [if_pos h]
  rfl

/-- C9 witness: the singleton series at its only index. -/
theorem rolling_std_short_window_zero_witness :
    (windowAt 5 [(3 : ℚ)] 0).length < 2 ∧ rollStd5FilledAt [(3 : ℚ)] 0 = 0 :=
  ⟨by decide, rolling_std_short_window_zero [(3 : ℚ)] 0 (by decide) (by decide)⟩

/-! ## Claim C10 -/

/-- C10: when the long-window baseline (`rolling(window=120,
min_periods=30).mean()`) is exactly zero, the deviation percentage is the
missing value (`NaN`/`NA`), because the code divides by
`baseline.replace(0, pd.NA)`; the computation is a total function — it
never raises, for any input series. -/
theorem dev_pct_zero_baseline_is_null (xs : List ℚ) (i : ℕ)
    (h : rollMeanAt 120 30 xs i = some 0) :
    devPctAt xs i = none := by
  unfold devPctAt
  rw [h]
  cases hd : devAt xs i <;> simp [optDiv, replaceZeroNA]

/-- The concrete series of thirty zero pressures: its baseline at the
last index is `0`. -/
lemma rollMean_thirty_zeros :
    rollMeanAt 120 30 (List.replicate 30 (0 : ℚ)) 29 = some 0 := by
  simp [rollMeanAt, windowAt, listMean, List.take_replicate]

/-- C10 witness: a series of thirty zero readings reaches the 30-point
minimum with a zero baseline, and its deviation percentage is `NA`. -/
theorem dev_pct_zero_baseline_is_null_witness :
    rollMeanAt 120 30 (List.replicate 30 (0 : ℚ)) 29 = some 0 ∧
      devPctAt (List.replicate 30 (0 : ℚ)) 29 = none :=
  ⟨rollMean_thirty_zeros,
    dev_pct_zero_baseline_is_null (List.replicate 30 (0 : ℚ)) 29 rollMean_thirty_zeros⟩

end AnomalyBackend
